import Mathlib

/-!
Shallow embedding of the Phi⊗O contract validation engine.

The embedding follows `src/contract_probe.py` (authoritative) and, where noted,
`src/tests/contracts.py`.  Python dictionaries with a fixed key set become Lean
structures; arbitrary Python values flowing through the pluggable extractor
become the inductive `PyVal`; Python numbers are modelled as rationals (every
numeric literal the engine manipulates is exactly representable); external
subprocess effects are modelled as explicit "world" inputs; a Python function
that can raise is modelled with `Except`.
-/

/-- Model of a Python value as it appears in the probe data flow: `None`,
booleans (kept separate from ints, as the source always guards with
`not isinstance(x, bool)`), numbers, strings, lists, tuples and
string-keyed dicts. -/
inductive PyVal where
  | none
  | bool (b : Bool)
  | int (n : Int)
  | float (q : ℚ)
  | str (s : String)
  | list (xs : List PyVal)
  | tuple (xs : List PyVal)
  | dict (es : List (String × PyVal))

/-- Python `type(v).__name__` for the modelled values. -/
def pyTypeName : PyVal → String
  | .none => "NoneType"
  | .bool _ => "bool"
  | .int _ => "int"
  | .float _ => "float"
  | .str _ => "str"
  | .list _ => "list"
  | .tuple _ => "tuple"
  | .dict _ => "dict"

/-- The filter `isinstance(v, (int, float, str)) and not isinstance(v, bool)`
used for the literal `zones` view. -/
def isScalarLit : PyVal → Bool
  | .int _ => true
  | .float _ => true
  | .str _ => true
  | _ => false

/-- Python truthiness of a value (`bool(v)`). -/
def pyTruthy : PyVal → Bool
  | .none => false
  | .bool b => b
  | .int n => decide (n ≠ 0)
  | .float q => decide (q ≠ 0)
  | .str s => decide (s ≠ "")
  | .list xs => !xs.isEmpty
  | .tuple xs => !xs.isEmpty
  | .dict es => !es.isEmpty

/-- Python `d.get(k)`: value of the first binding of `k`, if any. -/
def pyGet (es : List (String × PyVal)) (k : String) : Option PyVal :=
  (es.find? (fun kv => kv.1 == k)).map (·.2)

/-- Python `d.get(k, dflt)`. -/
def pyGetD (es : List (String × PyVal)) (k : String) (dflt : PyVal) : PyVal :=
  (pyGet es k).getD dflt

/-- Whether an optional lookup produced a dict (`isinstance(d.get(k), dict)`). -/
def isSomeDict : Option PyVal → Bool
  | some (.dict _) => true
  | _ => false

/-- Whether an optional lookup produced a list (`isinstance(d.get(k), list)`). -/
def isSomeList : Option PyVal → Bool
  | some (.list _) => true
  | _ => false

/-- Whether a value is a dict (`isinstance(raw, dict)`). -/
def isDictV : PyVal → Bool
  | .dict _ => true
  | _ => false

/-- Whether an optional lookup produced a list or a tuple
(`isinstance(d.get(k), (list, tuple))`). -/
def isListOrTup : Option PyVal → Bool
  | some (.list _) => true
  | some (.tuple _) => true
  | _ => false

/-- Whether `p` is a prefix of `s` (character lists). -/
def startsWithL : List Char → List Char → Bool
  | _, [] => true
  | [], _ :: _ => false
  | c :: cs, p :: ps => c == p && startsWithL cs ps

/-- Whether `pat` occurs as a contiguous substring of `s` (character lists). -/
def containsSub : List Char → List Char → Bool
  | [], pat => pat.isEmpty
  | c :: cs, pat => startsWithL (c :: cs) pat || containsSub cs pat

/-- Python `pat in s` on strings: substring occurrence. -/
def strContains (s pat : String) : Bool := containsSub s.data pat.data

/-- Code-point lexicographic `a <= b` on character lists, as Python compares
strings. -/
def charListLe : List Char → List Char → Bool
  | [], _ => true
  | _ :: _, [] => false
  | a :: xs, b :: ys => if a = b then charListLe xs ys else decide (a < b)

/-- Code-point lexicographic order on strings. -/
def strLeB (a b : String) : Bool := charListLe a.data b.data

/-- Insert into a sorted list of strings. -/
def insertSorted (x : String) : List String → List String
  | [] => [x]
  | y :: ys => if strLeB x y then x :: y :: ys else y :: insertSorted x ys

/-- Python `sorted` on a list of strings (code-point order). -/
def pySorted (l : List String) : List String := l.foldr insertSorted []

/-- Python `set(...)` then list: keep the first occurrence of each string. -/
def pyDedupAux : List String → List String → List String
  | _, [] => []
  | seen, x :: xs =>
      if seen.contains x then pyDedupAux seen xs
      else x :: pyDedupAux (x :: seen) xs

/-- Deduplicate a list of strings, keeping first occurrences. -/
def pyDedup (l : List String) : List String := pyDedupAux [] l

/-- Python `a or b` on strings: `a` if non-empty, else `b`. -/
def pyOrStr (a b : String) : String := if a = "" then b else a

/-- Outcome of calling the supplied run-help capability: it either raises or
returns a text (possibly `None`). -/
inductive HelpOutcome where
  | raises (msg : String)
  | returns (t : Option String)

/-- The `cli` section dictionary built by `extract_cli_contract`
(`src/contract_probe.py`, lines 90-121).  `tau_aliases` is only present on the
success path, hence the `Option`. -/
structure CliInfo where
  help_valid : Bool
  help_len : Nat
  subcommands : List String
  flags : List String
  required_subcommands : List String
  required_flags : List String
  error : Option String
  tau_aliases : Option (Bool × Bool)

/-- The five flag tokens scanned for in the help text
(`src/contract_probe.py`, line 112). -/
def scannedFlags : List String := ["--input", "--outdir", "--help", "--agg_tau", "--agg_τ"]

/-- The two required subcommand names (`src/contract_probe.py`, line 96). -/
def requiredSubcommands : List String := ["new-template", "score"]

/-- Function `extract_cli_contract` from `src/contract_probe.py` (lines 90-121), as a
function of the run-help capability outcome.  On a raise the initial record is
returned with the message in `error`; on a return `help_valid` is set, the
combined text (with `None` coerced to `""`) is scanned for the required
subcommands and the five flag tokens, and the detected flags are
deduplicated and sorted. -/
def extract_cli_contract (h : HelpOutcome) : CliInfo :=
  match h with
  | .raises m =>
      { help_valid := false, help_len := 0, subcommands := [], flags := []
        required_subcommands := requiredSubcommands
        required_flags := ["--input", "--outdir"]
        error := some m, tau_aliases := Option.none }
  | .returns t =>
      let text := t.getD ""
      { help_valid := true
        help_len := text.length
        subcommands := requiredSubcommands.filter (fun s => strContains text s)
        flags := pySorted (pyDedup (scannedFlags.filter (fun f => strContains text f)))
        required_subcommands := requiredSubcommands
        required_flags := ["--input", "--outdir"]
        error := Option.none
        tau_aliases := some (strContains text "--agg_tau", strContains text "--agg_τ") }

/-- The `formula` section dictionary (`golden_attempted` / `golden_pass` plus
an optional `error` message). -/
structure FormulaInfo where
  golden_attempted : Bool
  golden_pass : Bool
  error : Option String

/-- The result of `calculate_compliance_levels`: the three axis levels, the
global level and the human-readable summary string. -/
structure ComplianceOut where
  cliLevel : String
  zonesLevel : String
  formulaLevel : String
  globalLevel : String
  summary : String

/-- The inner `assess_level` helper of `calculate_compliance_levels`
(`src/contract_probe.py`, lines 263-268). -/
def assessLevel (fl pt : Bool) : String :=
  if fl then "FULL" else if pt then "PARTIAL" else "MINIMAL"

/-- The numeric order `{"FULL": 3, "PARTIAL": 2, "MINIMAL": 1}` used as the
`min` key (`src/contract_probe.py`, line 288).  The engine only applies it to
outputs of `assess_level`; the 0 default is unreachable there. -/
def pyOrder (s : String) : Nat :=
  if s = "FULL" then 3 else if s = "PARTIAL" then 2 else if s = "MINIMAL" then 1 else 0

/-- Python `min([a, b, c], key=pyOrder)`: first element with the strictly
smallest key (a later element replaces the running best only on a strictly
smaller key). -/
def pyMin3 (a b c : String) : String :=
  if pyOrder c < pyOrder (if pyOrder b < pyOrder a then b else a) then c
  else if pyOrder b < pyOrder a then b else a

/-- Behaviour of the pluggable static extractor at the given target path: it
either raises or returns a Python value (possibly `None`). -/
inductive ExtractorBehavior where
  | raises (msg : String)
  | returns (v : PyVal)

/-- The `out` dictionary built by `extract_zones`
(`src/contract_probe.py`, lines 131-137).  Keys that are only conditionally
present (`error`, `pattern`, `name`, `fallback`) are `Option`s. -/
structure ZonesInfo where
  zones : List (String × PyVal)
  constants : List (String × PyVal)
  if_chain : List PyVal
  attempted : Bool
  method : String
  error : Option String
  pat : Option PyVal
  name : Option PyVal
  fallbackKey : Option String

/-- The initial `out` record of `extract_zones`: empty views,
`attempted=True`, `method="ast"`. -/
def zonesBase : ZonesInfo :=
  { zones := [], constants := [], if_chain := [], attempted := true
    method := "ast", error := Option.none, pat := Option.none
    name := Option.none, fallbackKey := Option.none }

/-- Python ASCII whitespace, the characters matched by the regex class
`\s` within the source lines the fallback scans. -/
def isSpaceC (c : Char) : Bool :=
  c = ' ' || c = '\t' || c = '\n' || c = '\r' || c = '\x0b' || c = '\x0c'

/-- ASCII decimal digit. -/
def isDigitC (c : Char) : Bool := decide ('0' ≤ c) && decide (c ≤ '9')

/-- Consume the literal `pat` from the front of `s`. -/
def takeLit : List Char → List Char → Option (List Char)
  | s, [] => some s
  | [], _ :: _ => Option.none
  | c :: cs, p :: ps => if c = p then takeLit cs ps else Option.none

/-- One attempt of the fallback pattern
`^\s*ZONE_THRESHOLDS\s*=\s*<op>([^<cl>]+)<cl>\s*$` (multiline) at a position
that starts a line; returns the bracketed content on success.  The character
classes on either side of each `\s*` are disjoint from whitespace, and the
bracketed class excludes the closing character, so the backtracking regex
match is equivalent to this greedy scan; `$` under `re.M` holds at end of
input or before a newline. -/
def matchZoneAt (op cl : Char) (s : List Char) : Option (List Char) :=
  match takeLit (s.dropWhile isSpaceC) "ZONE_THRESHOLDS".data with
  | Option.none => Option.none
  | some s2 =>
    match s2.dropWhile isSpaceC with
    | '=' :: s4 =>
      match s4.dropWhile isSpaceC with
      | c :: s6 =>
        if c = op then
          let inside := s6.takeWhile (fun d => !(d = cl))
          if inside.isEmpty then Option.none
          else
            match s6.dropWhile (fun d => !(d = cl)) with
            | c2 :: s7 =>
              if c2 = cl then
                if (s7.dropWhile isSpaceC).isEmpty
                    || (s7.takeWhile isSpaceC).contains '\n' then some inside
                else Option.none
              else Option.none
            | [] => Option.none
        else Option.none
      | [] => Option.none
    | _ => Option.none

/-- Drop characters up to and including the next newline. -/
def afterNewline : List Char → Option (List Char)
  | [] => Option.none
  | c :: cs => if c = '\n' then some cs else afterNewline cs

/-- Try `matchZoneAt` at every line start, left to right (the fuel bounds the
number of lines; `searchZone` supplies enough). -/
def searchZoneFuel (op cl : Char) : Nat → List Char → Option (List Char)
  | 0, _ => Option.none
  | n + 1, s =>
    match matchZoneAt op cl s with
    | some r => some r
    | Option.none =>
      match afterNewline s with
      | some rest => searchZoneFuel op cl n rest
      | Option.none => Option.none

/-- Model of `re.search` of the fallback pattern over the whole source. -/
def searchZone (op cl : Char) (s : List Char) : Option (List Char) :=
  searchZoneFuel op cl (s.length + 1) s

/-- Natural number denoted by a list of decimal digits. -/
def digitsVal (ds : List Char) : Nat :=
  ds.foldl (fun a c => a * 10 + (c.toNat - 48)) 0

/-- Value of a fractional digit run (`.d₁…dₖ` denotes `digitsVal/10^k`). -/
def fracVal (ds : List Char) : ℚ :=
  (digitsVal ds : ℚ) / ((10 : ℚ) ^ ds.length)

/-- One unsigned numeric token `\d+(\.\d*)?|\.\d+` at the current position,
with the value Python `float()` assigns to it. -/
def parseUnsigned : List Char → Option (ℚ × List Char)
  | '.' :: r =>
      let ds := r.takeWhile isDigitC
      if ds.isEmpty then Option.none
      else some (fracVal ds, r.dropWhile isDigitC)
  | s =>
      let ds := s.takeWhile isDigitC
      if ds.isEmpty then Option.none
      else
        match s.dropWhile isDigitC with
        | '.' :: r2 =>
            some ((digitsVal ds : ℚ) + fracVal (r2.takeWhile isDigitC),
                  r2.dropWhile isDigitC)
        | r => some ((digitsVal ds : ℚ), r)

/-- One token of `[-+]?(?:\d+(?:\.\d*)?|\.\d+)` at the current position.  If a
sign is present but no number follows, the regex backtracks to the unsigned
alternative, which then also fails at the sign character. -/
def scanNumAt : List Char → Option (ℚ × List Char)
  | '-' :: r => (parseUnsigned r).map (fun p => (-p.1, p.2))
  | '+' :: r => parseUnsigned r
  | s => parseUnsigned s

/-- Model of `re.findall` of the numeric token pattern: non-overlapping matches, left
to right (fuel bounds the scan; `findNums` supplies enough). -/
def findNumsFuel : Nat → List Char → List ℚ
  | 0, _ => []
  | _ + 1, [] => []
  | n + 1, c :: cs =>
    match scanNumAt (c :: cs) with
    | some (q, r) => q :: findNumsFuel n r
    | Option.none => findNumsFuel n cs

/-- All numeric tokens of a character list, with their `float()` values. -/
def findNums (s : List Char) : List ℚ := findNumsFuel (s.length + 1) s

/-- Function `_fallback_regex_thresholds` from `src/contract_probe.py` (lines 66-83):
search for a bracketed `ZONE_THRESHOLDS` assignment line, then a
parenthesised one; extract the numeric tokens; `None` when nothing usable is
found, else the `{"thresholds": …, "pattern": "fallback_regex",
"name": "ZONE_THRESHOLDS"}` dictionary. -/
def fallbackRegexThresholds (src : String) : Option PyVal :=
  let inside :=
    match searchZone '[' ']' src.data with
    | some r => some r
    | Option.none => searchZone '(' ')' src.data
  match inside with
  | Option.none => Option.none
  | some content =>
    let nums := findNums content
    if nums.isEmpty then Option.none
    else some (.dict [("thresholds", .list (nums.map PyVal.float)),
                      ("pattern", .str "fallback_regex"),
                      ("name", .str "ZONE_THRESHOLDS")])

/-- Python `float(x)` for the values admitted by
`isinstance(x, (int, float)) and not isinstance(x, bool)`. -/
def toFloatNum : PyVal → Option ℚ
  | .int n => some (n : ℚ)
  | .float q => some q
  | _ => Option.none

/-- Recompute the `zones` view: constants restricted to scalar literals
(`src/contract_probe.py`, lines 191-194). -/
def finishZones (o : ZonesInfo) : ZonesInfo :=
  { o with zones := o.constants.filter (fun kv => isScalarLit kv.2) }

/-- The `thresholds` normalisation branch (`src/contract_probe.py`,
lines 160-167): numeric entries become `THRESH_i` float constants. -/
def threshBranch (o : ZonesInfo) (es : List (String × PyVal)) (xs : List PyVal) : ZonesInfo :=
  let ths := xs.filterMap toFloatNum
  finishZones
    { o with
      constants := ths.enum.map (fun p => ("THRESH_" ++ toString p.1, PyVal.float p.2))
      pat := some (pyGetD es "pattern" (.str "thresholds"))
      name := some (pyGetD es "name" .none) }

/-- The `mapping` normalisation branch (`src/contract_probe.py`,
lines 170-177): scalar-literal entries are kept. -/
def mappingBranch (o : ZonesInfo) (es mp : List (String × PyVal)) : ZonesInfo :=
  finishZones
    { o with
      constants := mp.filter (fun kv => isScalarLit kv.2)
      pat := some (pyGetD es "pattern" (.str "mapping"))
      name := some (pyGetD es "name" .none) }

/-- The passthrough normalisation branch (`src/contract_probe.py`,
lines 180-183): adopt `constants` / `if_chain` when well-shaped. -/
def passBranch (o : ZonesInfo) (es : List (String × PyVal)) : ZonesInfo :=
  finishZones
    { o with
      constants := match pyGet es "constants" with
                   | some (.dict cs) => cs
                   | _ => []
      if_chain := match pyGet es "if_chain" with
                  | some (.list l) => l
                  | _ => []
      pat := some (pyGetD es "pattern" (.str "ast")) }

/-- The shape check and normalisation of `extract_zones`
(`src/contract_probe.py`, lines 153-194), applied to the raw extractor
value. -/
def normalizeRaw (o : ZonesInfo) (raw : PyVal) : ZonesInfo :=
  match raw with
  | .dict es =>
    match pyGet es "thresholds" with
    | some (.list xs) => threshBranch o es xs
    | some (.tuple xs) => threshBranch o es xs
    | _ =>
      match pyGet es "mapping" with
      | some (.dict mp) => mappingBranch o es mp
      | _ =>
        if isSomeDict (pyGet es "constants") || isSomeList (pyGet es "if_chain") then
          passBranch o es
        else
          { o with
            method := "ast_failed"
            error := some ("extract_zone_thresholds_ast returned dict without recognized keys: "
                           ++ String.intercalate ", " (pySorted (es.map Prod.fst))) }
  | _ =>
      { o with
        method := "ast_failed"
        error := some ("extract_zone_thresholds_ast returned non-dict: " ++ pyTypeName raw) }

/-- The shared tail of `extract_zones` once `raw` is known
(`src/contract_probe.py`, lines 142-195): a `None` raw triggers the regex
fallback on the target source, whose absence is the
`extract_zone_thresholds_ast returned None` failure; anything else is
normalised. -/
def afterRaw (raw : PyVal) (src : String) : ZonesInfo :=
  match raw with
  | .none =>
    match fallbackRegexThresholds src with
    | Option.none =>
        { zonesBase with
          method := "ast_failed"
          error := some "extract_zone_thresholds_ast returned None" }
    | some fb =>
        normalizeRaw
          { zonesBase with method := "fallback", fallbackKey := some "ZONE_THRESHOLDS_regex" } fb
  | _ => normalizeRaw zonesBase raw

/-- Function `extract_zones` from `src/contract_probe.py` (lines 124-200), as a
function of the extractor capability (absent, raising, or returning a value)
and the target source text.  The enclosing `try` turns an extractor exception
into `method="ast_failed"` with the message in `error`, on the otherwise
untouched initial record. -/
def extract_zones (ex : Option ExtractorBehavior) (src : String) : ZonesInfo :=
  match ex with
  | some (.raises m) => { zonesBase with method := "ast_failed", error := some m }
  | some (.returns v) => afterRaw v src
  | Option.none => afterRaw .none src

/-- Function `extract_zones` from `src/tests/contracts.py` (lines 114-188): the same
body, except that an extractor exception is swallowed (`raw = None`) and the
regex fallback is still consulted. -/
def extract_zones_tests (ex : Option ExtractorBehavior) (src : String) : ZonesInfo :=
  afterRaw
    (match ex with
     | some (.returns v) => v
     | _ => .none) src

/-- The cli axis level of `calculate_compliance_levels`
(`src/contract_probe.py`, lines 270-276): FULL needs valid help, at least two
detected subcommands, and both `--input` and `--outdir` among the detected
flags; merely valid help gives PARTIAL. -/
def cliLevelOf (ci : CliInfo) : String :=
  assessLevel
    (ci.help_valid && decide (2 ≤ ci.subcommands.length)
      && (["--input", "--outdir"].all (fun f => ci.flags.contains f)))
    ci.help_valid

/-- The zones axis level (`src/contract_probe.py`, lines 278-282): FULL needs
a non-empty literal `zones` view; an attempted extraction gives PARTIAL. -/
def zonesLevelOf (zi : ZonesInfo) : String :=
  assessLevel (!(zi.zones.filter (fun kv => isScalarLit kv.2)).isEmpty) zi.attempted

/-- The formula axis level (`src/contract_probe.py`, lines 284-286): FULL
needs a passed golden run; an attempted one gives PARTIAL. -/
def formulaLevelOf (fi : FormulaInfo) : String :=
  assessLevel fi.golden_pass fi.golden_attempted

/-- Function `calculate_compliance_levels` from `src/contract_probe.py`
(lines 262-295): per-axis levels, global level as the Python `min` of the
three under the `{"FULL": 3, "PARTIAL": 2, "MINIMAL": 1}` key, and the
summary string. -/
def calculate_compliance_levels (ci : CliInfo) (zi : ZonesInfo) (fi : FormulaInfo) : ComplianceOut :=
  let a := cliLevelOf ci
  let b := zonesLevelOf zi
  let c := formulaLevelOf fi
  { cliLevel := a, zonesLevel := b, formulaLevel := c
    globalLevel := pyMin3 a b c
    summary := "CLI:" ++ a ++ "/ZONES:" ++ b ++ "/FORMULA:" ++ c }

/-- Python `key in v` for the membership tests of `check_formula_contract`:
key membership for dicts, element equality for lists and tuples, substring
for strings; `Option.none` models the `TypeError` raised on other types. -/
def pyContainsK (key : String) : PyVal → Option Bool
  | .dict es => some (es.any (fun kv => kv.1 == key))
  | .list xs => some (xs.any (fun x => match x with
                                       | .str s => s == key
                                       | _ => false))
  | .tuple xs => some (xs.any (fun x => match x with
                                        | .str s => s == key
                                        | _ => false))
  | .str s => some (strContains s key)
  | _ => Option.none

/-- Python `for it in v` for a JSON-decoded value: lists and tuples iterate
their elements, strings their characters, dicts their keys; `Option.none`
models the `TypeError` on non-iterables. -/
def pyIterable : PyVal → Option (List PyVal)
  | .list xs => some xs
  | .tuple xs => some xs
  | .str s => some (s.data.map (fun c => PyVal.str (String.mk [c])))
  | .dict es => some (es.map (fun kv => PyVal.str kv.1))
  | _ => Option.none

/-- Whether one iteration of the mutation loop of `check_formula_contract`
(`if "score" in it: it["score"] = 2`) completes without raising: the
membership test must be defined, and a positive test needs an item that
supports string-keyed assignment (a dict). -/
def mutStepOk (it : PyVal) : Bool :=
  match pyContainsK "score" it with
  | Option.none => false
  | some false => true
  | some true =>
    match it with
    | .dict _ => true
    | _ => false

/-- Whether the whole template mutation of `check_formula_contract`
(`src/contract_probe.py`, lines 245-247) completes without raising: the
decoded template must be a dict (`.get`), its `items` entry (default `[]`)
must be iterable, and every item must pass `mutStepOk`. -/
def mutationOk (t : PyVal) : Bool :=
  match t with
  | .dict es =>
    match pyIterable (pyGetD es "items" (.list [])) with
    | Option.none => false
    | some its => its.all mutStepOk
  | _ => false

/-- Outcomes of the two external invocations performed by
`check_formula_contract`: the `new-template` run (return code, whether the
template file was produced, captured streams, and the JSON decoding of the
produced file, `Option.none` when it fails to parse) and the `score` run
(return code, captured stderr, and the decoded `results.json`,
`Option.none` when absent or unparseable, as `_run_score_once` returns). -/
structure ScoreWorld where
  ntRc : Int
  ntFile : Bool
  ntStderr : String
  ntStdout : String
  tContent : Option PyVal
  scRc : Int
  scStderr : String
  scResults : Option PyVal

/-- Truthiness of the `results` variable of `_run_score_once` (`None` or a
decoded JSON value). -/
def pyTruthyOpt : Option PyVal → Bool
  | some r => pyTruthy r
  | Option.none => false

/-- The `golden_pass=False` record with the given failure message. -/
def goldenFail (msg : String) : FormulaInfo :=
  { golden_attempted := true, golden_pass := false, error := some msg }

/-- The record for a results file missing a required field
(`src/contract_probe.py`, lines 254-256). -/
def missingFieldRec : FormulaInfo := goldenFail "results.json missing T and/or K_eff"

/-- Tail of `check_formula_contract` after the `"K_eff" in results`
membership test (`Option.none` models the `TypeError` the test raises on a
number). -/
def cfcK : Option Bool → Except String FormulaInfo
  | Option.none => .error "TypeError: membership test on results"
  | some b => if b = false then .ok missingFieldRec
              else .ok { golden_attempted := true, golden_pass := true, error := Option.none }

/-- Tail of `check_formula_contract` after the `"T" in results` membership
test; Python short-circuits, so `"K_eff"` is only tested when `"T"` was
found. -/
def cfcT (res : PyVal) : Option Bool → Except String FormulaInfo
  | Option.none => .error "TypeError: membership test on results"
  | some b => if b = false then .ok missingFieldRec
              else cfcK (pyContainsK "K_eff" res)

/-- Tail of `check_formula_contract` once the score run is known to have
produced truthy results (the `Option.none` branch repeats the score-failure
record but is unreachable after the truthiness test). -/
def cfcResults (w : ScoreWorld) : Option PyVal → Except String FormulaInfo
  | Option.none => .ok (goldenFail ("score failed: " ++ w.scStderr))
  | some res => cfcT res (pyContainsK "T" res)

/-- Tail of `check_formula_contract` after the template file was produced:
decoding failure and mutation `TypeError` are raising paths; then
`if rc != 0 or not results` records a score failure, else the membership
tests run. -/
def cfcTemplate (w : ScoreWorld) : Option PyVal → Except String FormulaInfo
  | Option.none => .error "json.loads: template file is not valid JSON"
  | some t =>
      if mutationOk t = false then .error "TypeError while mutating template items"
      else if w.scRc ≠ 0 ∨ pyTruthyOpt w.scResults = false then
        .ok (goldenFail ("score failed: " ++ w.scStderr))
      else cfcResults w w.scResults

/-- Function `check_formula_contract` from `src/contract_probe.py` (lines 227-259) as
a function of the external-run outcomes.  `Except.error` marks the paths on
which the Python function raises instead of returning an `info` record: a
produced template file that does not decode as JSON (`json.loads`, line 244),
a `TypeError` in the mutation loop, or a `TypeError` in the membership tests
on the results value. -/
def check_formula_contract (w : ScoreWorld) : Except String FormulaInfo :=
  if w.ntRc ≠ 0 ∨ w.ntFile = false then
    .ok (goldenFail ("new-template failed: " ++ pyOrStr w.ntStderr w.ntStdout))
  else cfcTemplate w w.tContent

/-- One link of a recognised conditional ladder: a less-than-family
comparator kind, a literal numeric threshold and the literal zone label the
branch assigns. -/
structure ChainLink where
  cmp : String
  threshold : ℚ
  label : String

/-- Modelled from the spec: the candidate signals the static analysis finds
in the target syntax tree.  The AST extractor `extract_zone_thresholds_ast`
lives in the repository's `tests/contracts.py` module, which is not under
`src/`; per the spec it searches the parsed tree for top-level assignments
and for one conditional ladder, so the tree is abstracted into those two
components (in source order). -/
structure SourceTree where
  assigns : List (String × PyVal)
  ladder : List ChainLink

/-- Modelled from the spec: the fixed set of recognised zone-constant names;
the spec names `ZONE_THRESHOLDS` as the primary recognised constant (it is
also the fallback regex target). -/
def recognizedZoneNames : List String := ["ZONE_THRESHOLDS"]

/-- A numeric literal (bools excluded), as admitted in a recognised
threshold sequence. -/
def numLit : PyVal → Bool
  | .int _ => true
  | .float _ => true
  | _ => false

/-- Modelled from the spec: does one top-level assignment match the direct
assignment pattern?  A recognised name whose value is a literal sequence of
numbers yields a `thresholds` raw result; a literal mapping yields a
`mapping` raw result. -/
def zoneAssign (kv : String × PyVal) : Option PyVal :=
  if recognizedZoneNames.contains kv.1 then
    match kv.2 with
    | .list xs =>
        if xs.all numLit then
          some (.dict [("thresholds", .list xs), ("pattern", .str "assignment"),
                       ("name", .str kv.1)])
        else Option.none
    | .tuple xs =>
        if xs.all numLit then
          some (.dict [("thresholds", .tuple xs), ("pattern", .str "assignment"),
                       ("name", .str kv.1)])
        else Option.none
    | .dict mp =>
        some (.dict [("mapping", .dict mp), ("pattern", .str "assignment"),
                     ("name", .str kv.1)])
    | _ => Option.none
  else Option.none

/-- Modelled from the spec: the first direct-assignment match in the tree
(first match wins; the tree is not searched further). -/
def findAssignment (l : List (String × PyVal)) : Option PyVal :=
  l.findSome? zoneAssign

/-- Strictly increasing adjacent pairs along a list of thresholds. -/
def strictIncrQ : List ℚ → Bool
  | a :: b :: r => decide (a < b) && strictIncrQ (b :: r)
  | _ => true

/-- Modelled from the spec: ladder validation.  Any equal or decreasing
adjacent threshold pair invalidates the entire chain: the result is empty,
never a partially accepted chain. -/
def validateChain (links : List ChainLink) : List ChainLink :=
  if strictIncrQ (links.map (·.threshold)) then links else []

/-- Modelled from the spec: the two named literal constants each accepted
chain link emits for traceability (its threshold and its label). -/
def chainConstants (links : List ChainLink) : List (String × PyVal) :=
  (links.enum.map (fun p =>
    [("ZONE_" ++ toString p.1 ++ "_threshold", PyVal.float p.2.threshold),
     ("ZONE_" ++ toString p.1 ++ "_label", PyVal.str p.2.label)])).flatten

/-- One chain-link record `(comparator-kind, threshold, label)` as a raw
value. -/
def chainLinkVal (l : ChainLink) : PyVal :=
  .dict [("cmp", .str l.cmp), ("threshold", .float l.threshold), ("label", .str l.label)]

/-- Modelled from the spec: the "no signal detected" raw result — empty
constants, `pattern="none"`, not an error. -/
def noSignalDict : PyVal :=
  .dict [("constants", .dict []), ("if_chain", .list []), ("pattern", .str "none")]

/-- Modelled from the spec: the raw result of the ladder search.  An
accepted (strictly increasing) non-empty chain yields its records and
traceability constants; a rejected or absent chain means no signal. -/
def ladderResult (links : List ChainLink) : PyVal :=
  let vl := validateChain links
  if vl.isEmpty then noSignalDict
  else .dict [("constants", .dict (chainConstants vl)),
              ("if_chain", .list (vl.map chainLinkVal)),
              ("pattern", .str "if_chain")]

/-- Modelled from the spec: `extract_zone_thresholds_ast`, the repo's static
extractor (its module is not under `src/`).  Direct assignment pattern
first (first match wins); otherwise the conditional ladder, valid only with
strictly increasing thresholds; otherwise the "no signal detected" result. -/
def extract_zone_thresholds_ast (t : SourceTree) : PyVal :=
  match findAssignment t.assigns with
  | some d => d
  | Option.none => ladderResult t.ladder

theorem strNe_FP : ("FULL" : String) ≠ "PARTIAL" := by decide

theorem strNe_PF : ("PARTIAL" : String) ≠ "FULL" := by decide

theorem strNe_FM : ("FULL" : String) ≠ "MINIMAL" := by decide

theorem strNe_MF : ("MINIMAL" : String) ≠ "FULL" := by decide

theorem strNe_PM : ("PARTIAL" : String) ≠ "MINIMAL" := by decide

theorem strNe_MP : ("MINIMAL" : String) ≠ "PARTIAL" := by decide

/-- The Python three-way `min` really is a minimum: its key is below each
element's key and it is one of the three elements. -/
theorem pyMin3_min (a b c : String) :
    pyOrder (pyMin3 a b c) ≤ pyOrder a ∧ pyOrder (pyMin3 a b c) ≤ pyOrder b
    ∧ pyOrder (pyMin3 a b c) ≤ pyOrder c
    ∧ (pyMin3 a b c = a ∨ pyMin3 a b c = b ∨ pyMin3 a b c = c) := by
  unfold pyMin3
  by_cases h1 : pyOrder b < pyOrder a
  · rw [if_pos h1]
    by_cases h2 : pyOrder c < pyOrder b
    · rw [if_pos h2]
      exact ⟨by omega, by omega, le_refl _, Or.inr (Or.inr rfl)⟩
    · rw [if_neg h2]
      exact ⟨by omega, le_refl _, by omega, Or.inr (Or.inl rfl)⟩
  · rw [if_neg h1]
    by_cases h2 : pyOrder c < pyOrder a
    · rw [if_pos h2]
      exact ⟨by omega, by omega, le_refl _, Or.inr (Or.inr rfl)⟩
    · rw [if_neg h2]
      exact ⟨le_refl _, by omega, by omega, Or.inl rfl⟩

/-- With the partial predicate true, `assess_level` yields FULL or PARTIAL,
never MINIMAL. -/
theorem assessLevel_true (f : Bool) :
    assessLevel f true = "FULL" ∨ assessLevel f true = "PARTIAL" := by
  cases f
  · exact Or.inr rfl
  · exact Or.inl rfl

theorem assessLevel_full_iff (f p : Bool) : assessLevel f p = "FULL" ↔ f = true := by
  cases f <;> cases p <;> decide

theorem assessLevel_partial_iff (f p : Bool) :
    assessLevel f p = "PARTIAL" ↔ (f = false ∧ p = true) := by
  cases f <;> cases p <;> decide

theorem assessLevel_minimal_iff (f p : Bool) :
    assessLevel f p = "MINIMAL" ↔ (f = false ∧ p = false) := by
  cases f <;> cases p <;> decide

/-- A cli section that satisfies the FULL predicate. -/
def cliFullEx : CliInfo :=
  { help_valid := true, help_len := 40, subcommands := ["new-template", "score"]
    flags := ["--input", "--outdir"], required_subcommands := requiredSubcommands
    required_flags := ["--input", "--outdir"], error := Option.none
    tau_aliases := Option.none }

/-- A zones section with a non-empty literal zones view. -/
def zonesFullEx : ZonesInfo := { zonesBase with zones := [("THRESH_0", PyVal.float 1)] }

/-- The formula section of a run where no golden run was attempted. -/
def formulaMinEx : FormulaInfo := ⟨false, false, Option.none⟩

/-- C1: the global compliance level computed by `calculate_compliance_levels`
is the minimum of the three axis levels under the order FULL(3) > PARTIAL(2)
> MINIMAL(1): its key is below each axis key and it equals one of the axis
levels; in particular axis levels FULL, FULL, MINIMAL yield global
MINIMAL. -/
theorem C1_global_is_min :
    (∀ (ci : CliInfo) (zi : ZonesInfo) (fi : FormulaInfo),
      pyOrder (calculate_compliance_levels ci zi fi).globalLevel
          ≤ pyOrder (calculate_compliance_levels ci zi fi).cliLevel
      ∧ pyOrder (calculate_compliance_levels ci zi fi).globalLevel
          ≤ pyOrder (calculate_compliance_levels ci zi fi).zonesLevel
      ∧ pyOrder (calculate_compliance_levels ci zi fi).globalLevel
          ≤ pyOrder (calculate_compliance_levels ci zi fi).formulaLevel
      ∧ ((calculate_compliance_levels ci zi fi).globalLevel
            = (calculate_compliance_levels ci zi fi).cliLevel
         ∨ (calculate_compliance_levels ci zi fi).globalLevel
            = (calculate_compliance_levels ci zi fi).zonesLevel
         ∨ (calculate_compliance_levels ci zi fi).globalLevel
            = (calculate_compliance_levels ci zi fi).formulaLevel))
    ∧ (calculate_compliance_levels cliFullEx zonesFullEx formulaMinEx).cliLevel = "FULL"
    ∧ (calculate_compliance_levels cliFullEx zonesFullEx formulaMinEx).zonesLevel = "FULL"
    ∧ (calculate_compliance_levels cliFullEx zonesFullEx formulaMinEx).formulaLevel = "MINIMAL"
    ∧ (calculate_compliance_levels cliFullEx zonesFullEx formulaMinEx).globalLevel = "MINIMAL" := by
  refine ⟨fun ci zi fi => ?_, rfl, rfl, rfl, rfl⟩
  exact pyMin3_min (cliLevelOf ci) (zonesLevelOf zi) (formulaLevelOf fi)

/-- Lemma restating `cliLevelOf` with the two-element `all` unfolded into the two membership
tests. -/
theorem cliLevelOf_eq (ci : CliInfo) :
    cliLevelOf ci = assessLevel
      (ci.help_valid && decide (2 ≤ ci.subcommands.length)
        && (ci.flags.contains "--input" && ci.flags.contains "--outdir"))
      ci.help_valid := by
  unfold cliLevelOf
  congr 2
  simp [List.all_cons, List.all_nil]

/-- A help text containing both required subcommands and all five scanned
flag tokens. -/
def helpTextAll : String := "usage: new-template score --input --outdir --help --agg_tau --agg_τ"

/-- The same help text with `--input` omitted. -/
def helpTextNoInput : String := "usage: new-template score --outdir --help --agg_tau --agg_τ"

/-- A help text with both subcommands and only the two required flags: no
`--help` and neither tau alias. -/
def helpTextNoTau : String := "new-template score --input --outdir"

/-- C3 counterexample: the claim requires all four flag tokens (including the
tau alias pair) for a FULL cli level, but on a help text containing only
`--input` and `--outdir` besides the two subcommands the code still assigns
FULL, while neither `--agg_tau`, `--agg_τ` nor `--help` was detected. -/
theorem C3_counterexample :
    cliLevelOf (extract_cli_contract (.returns (some helpTextNoTau))) = "FULL"
    ∧ (extract_cli_contract (.returns (some helpTextNoTau))).flags = ["--input", "--outdir"]
    ∧ (extract_cli_contract (.returns (some helpTextNoTau))).flags.contains "--agg_tau" = false
    ∧ (extract_cli_contract (.returns (some helpTextNoTau))).flags.contains "--agg_τ" = false
    ∧ (extract_cli_contract (.returns (some helpTextNoTau))).flags.contains "--help" = false :=
  ⟨rfl, rfl, rfl, rfl, rfl⟩

/-- C3 (amended): the cli axis level is FULL iff help is valid, at least two
required subcommands were detected, and the two required flags `--input` and
`--outdir` are among the detected flags (the remaining scanned tokens,
including the tau alias pair, are not required for FULL); it is PARTIAL iff
help is merely valid and the FULL condition fails, and MINIMAL exactly when
help is invalid.  A help text with both subcommands and all scanned flags
yields FULL; omitting `--input` while help remains valid yields PARTIAL. -/
theorem C3_cli_levels :
    (∀ ci : CliInfo,
      (cliLevelOf ci = "FULL" ↔
        (ci.help_valid = true ∧ 2 ≤ ci.subcommands.length
          ∧ ci.flags.contains "--input" = true ∧ ci.flags.contains "--outdir" = true))
      ∧ (cliLevelOf ci = "PARTIAL" ↔
        (ci.help_valid = true
          ∧ ¬(2 ≤ ci.subcommands.length
              ∧ ci.flags.contains "--input" = true ∧ ci.flags.contains "--outdir" = true)))
      ∧ (cliLevelOf ci = "MINIMAL" ↔ ci.help_valid = false))
    ∧ cliLevelOf (extract_cli_contract (.returns (some helpTextAll))) = "FULL"
    ∧ cliLevelOf (extract_cli_contract (.returns (some helpTextNoInput))) = "PARTIAL" := by
  refine ⟨fun ci => ?_, rfl, rfl⟩
  rw [cliLevelOf_eq ci]
  cases hv : ci.help_valid <;> cases hs : decide (2 ≤ ci.subcommands.length) <;>
    cases hi : ci.flags.contains "--input" <;> cases ho : ci.flags.contains "--outdir" <;>
      simp_all [assessLevel, strNe_FP, strNe_PF, strNe_FM, strNe_MF, strNe_PM, strNe_MP,
                decide_eq_true_eq, decide_eq_false_iff_not]

/-- C10: `extract_cli_contract` sets `help_valid` exactly when the run-help
capability returns (whatever the returned text); a `None` or empty help text
still yields `help_valid=true` with `help_len=0`, no subcommands and no
flags; and whenever the help call returns, the cli axis level is FULL or
PARTIAL, never MINIMAL. -/
theorem C10_help_valid (h : HelpOutcome) :
    ((extract_cli_contract h).help_valid = true ↔ ∃ t, h = HelpOutcome.returns t)
    ∧ ((extract_cli_contract (HelpOutcome.returns Option.none)).help_len = 0
       ∧ (extract_cli_contract (HelpOutcome.returns Option.none)).subcommands = []
       ∧ (extract_cli_contract (HelpOutcome.returns Option.none)).flags = [])
    ∧ ((extract_cli_contract (HelpOutcome.returns (some ""))).help_len = 0
       ∧ (extract_cli_contract (HelpOutcome.returns (some ""))).subcommands = []
       ∧ (extract_cli_contract (HelpOutcome.returns (some ""))).flags = [])
    ∧ (∀ t, cliLevelOf (extract_cli_contract (HelpOutcome.returns t)) = "FULL"
        ∨ cliLevelOf (extract_cli_contract (HelpOutcome.returns t)) = "PARTIAL") := by
  refine ⟨?_, ⟨rfl, rfl, rfl⟩, ⟨rfl, rfl, rfl⟩, fun t => assessLevel_true _⟩
  cases h with
  | raises m =>
    constructor
    · intro hh; exact Bool.noConfusion hh
    · rintro ⟨t, ht⟩; exact HelpOutcome.noConfusion ht
  | returns t =>
    constructor
    · intro _; exact ⟨t, rfl⟩
    · intro _; rfl

/-- C10 witness: a concrete returning help call yields `help_valid=true`. -/
theorem C10_witness : (extract_cli_contract (HelpOutcome.returns (some "abc"))).help_valid = true :=
  (C10_help_valid (HelpOutcome.returns (some "abc"))).1.mpr ⟨some "abc", rfl⟩

/-- C3 witness: a concrete cli section with valid help, both subcommands and
the two required flags is classified FULL by the amended criterion. -/
theorem C3_witness : cliLevelOf cliFullEx = "FULL" :=
  (C3_cli_levels.1 cliFullEx).1.mpr ⟨rfl, by decide, rfl, rfl⟩

/-- Normalisation never touches the `attempted` flag. -/
theorem normalizeRaw_attempted (o : ZonesInfo) (raw : PyVal) :
    (normalizeRaw o raw).attempted = o.attempted := by
  unfold normalizeRaw
  repeat' split
  all_goals rfl

/-- Every result of `afterRaw` keeps `attempted = true`. -/
theorem afterRaw_attempted (raw : PyVal) (src : String) :
    (afterRaw raw src).attempted = true := by
  unfold afterRaw
  split
  · split
    · rfl
    · rw [normalizeRaw_attempted]
      rfl
  · rw [normalizeRaw_attempted]
    rfl

/-- Function `extract_zones` keeps `attempted = true` on every path. -/
theorem extract_zones_attempted (ex : Option ExtractorBehavior) (src : String) :
    (extract_zones ex src).attempted = true := by
  cases ex with
  | none => exact afterRaw_attempted _ _
  | some b =>
    cases b with
    | raises m => rfl
    | returns v => exact afterRaw_attempted _ _

/-- Normalisation either leaves `method` and `error` unchanged or marks the
failure, in which case an error message is present. -/
theorem normalizeRaw_shape (o : ZonesInfo) (raw : PyVal) :
    ((normalizeRaw o raw).method = o.method ∧ (normalizeRaw o raw).error = o.error)
    ∨ ((normalizeRaw o raw).method = "ast_failed"
       ∧ (normalizeRaw o raw).error.isSome = true) := by
  unfold normalizeRaw
  repeat' split
  all_goals first
    | exact Or.inl ⟨rfl, rfl⟩
    | exact Or.inr ⟨rfl, rfl⟩

/-- Function `afterRaw` yields one of the three method tags, and the failure tag
always comes with an error message. -/
theorem afterRaw_shape (raw : PyVal) (src : String) :
    ((afterRaw raw src).method = "ast" ∨ (afterRaw raw src).method = "fallback"
       ∨ (afterRaw raw src).method = "ast_failed")
    ∧ ((afterRaw raw src).method = "ast_failed" → (afterRaw raw src).error.isSome = true) := by
  unfold afterRaw
  split
  · split
    · exact ⟨Or.inr (Or.inr rfl), fun _ => rfl⟩
    · rename_i fb _
      rcases normalizeRaw_shape
          { zonesBase with method := "fallback", fallbackKey := some "ZONE_THRESHOLDS_regex" } fb
        with ⟨hm, he⟩ | ⟨hm, he⟩
      · refine ⟨Or.inr (Or.inl hm), fun hf => absurd (hf.symm.trans hm) (by decide)⟩
      · exact ⟨Or.inr (Or.inr hm), fun _ => he⟩
  · rcases normalizeRaw_shape zonesBase raw with ⟨hm, he⟩ | ⟨hm, he⟩
    · exact ⟨Or.inl hm, fun hf => absurd (hf.symm.trans hm) (by decide)⟩
    · exact ⟨Or.inr (Or.inr hm), fun _ => he⟩

/-- C2: when the supplied static extractor finds neither a recognised
constant assignment nor a conditional ladder in the target tree (and the
fallback regex would find nothing in the source either), `extract_zones`
returns `pattern="none"`, empty constants and zones, no error, and the
extraction method is not marked failed. -/
theorem C2_no_signal (t : SourceTree) (src : String)
    (h1 : findAssignment t.assigns = Option.none)
    (h2 : t.ladder = [])
    (_h3 : fallbackRegexThresholds src = Option.none) :
    (extract_zones (some (.returns (extract_zone_thresholds_ast t))) src).pat
        = some (.str "none")
    ∧ (extract_zones (some (.returns (extract_zone_thresholds_ast t))) src).constants = []
    ∧ (extract_zones (some (.returns (extract_zone_thresholds_ast t))) src).zones = []
    ∧ (extract_zones (some (.returns (extract_zone_thresholds_ast t))) src).error = Option.none
    ∧ (extract_zones (some (.returns (extract_zone_thresholds_ast t))) src).method = "ast" := by
  have hx : extract_zone_thresholds_ast t = noSignalDict := by
    unfold extract_zone_thresholds_ast
    rw [h1, h2]
    rfl
  rw [hx]
  exact ⟨rfl, rfl, rfl, rfl, rfl⟩

/-- A tree with no zone signal: one unrecognised assignment, no ladder. -/
def treeEmptyEx : SourceTree := ⟨[("X", PyVal.int 1)], []⟩

/-- C2 witness: the no-signal result on a concrete empty tree and a source
with no `ZONE_THRESHOLDS` line. -/
theorem C2_witness :
    (extract_zones (some (.returns (extract_zone_thresholds_ast treeEmptyEx))) "x = 1").pat
        = some (.str "none")
    ∧ (extract_zones (some (.returns (extract_zone_thresholds_ast treeEmptyEx))) "x = 1").error
        = Option.none :=
  ⟨(C2_no_signal treeEmptyEx "x = 1" rfl rfl rfl).1,
   (C2_no_signal treeEmptyEx "x = 1" rfl rfl rfl).2.2.2.1⟩

/-- The tree of a target declaring `ZONE_THRESHOLDS = [1.0, 2.0, 3.0]`. -/
def treeC4 : SourceTree :=
  ⟨[("ZONE_THRESHOLDS", PyVal.list [.float 1, .float 2, .float 3])], []⟩

/-- C4: the zones axis level is FULL iff the literal zones view is
non-empty, and PARTIAL iff an extraction was attempted and the FULL
condition fails; a target declaring `[1.0, 2.0, 3.0]` through the recognised
assignment pattern yields exactly three scalar zone entries, the static
(`"ast"`) extraction method, and a FULL zones level. -/
theorem C4_zones_full (ci : CliInfo) (zi : ZonesInfo) (fi : FormulaInfo) (src : String) :
    ((calculate_compliance_levels ci zi fi).zonesLevel = "FULL"
      ↔ zi.zones.filter (fun kv => isScalarLit kv.2) ≠ [])
    ∧ ((calculate_compliance_levels ci zi fi).zonesLevel = "PARTIAL"
      ↔ (zi.attempted = true ∧ zi.zones.filter (fun kv => isScalarLit kv.2) = []))
    ∧ (extract_zones (some (.returns (extract_zone_thresholds_ast treeC4))) src).zones
        = [("THRESH_0", PyVal.float 1), ("THRESH_1", PyVal.float 2),
           ("THRESH_2", PyVal.float 3)]
    ∧ (extract_zones (some (.returns (extract_zone_thresholds_ast treeC4))) src).method = "ast"
    ∧ zonesLevelOf (extract_zones (some (.returns (extract_zone_thresholds_ast treeC4))) src)
        = "FULL" := by
  have hz : (calculate_compliance_levels ci zi fi).zonesLevel = zonesLevelOf zi := rfl
  refine ⟨?_, ?_, rfl, rfl, rfl⟩
  · rw [hz]
    unfold zonesLevelOf
    rw [assessLevel_full_iff]
    rcases hl : zi.zones.filter (fun kv => isScalarLit kv.2) with _ | ⟨p, rest⟩
    · simp
    · simp
  · rw [hz]
    unfold zonesLevelOf
    rw [assessLevel_partial_iff]
    constructor
    · rintro ⟨hf, ha⟩
      refine ⟨ha, ?_⟩
      rcases hl : zi.zones.filter (fun kv => isScalarLit kv.2) with _ | ⟨p, rest⟩
      · exact hl
      · rw [hl] at hf
        simp at hf
    · rintro ⟨ha, hf⟩
      refine ⟨?_, ha⟩
      rw [hf]
      rfl

/-- C4 witness: a zones section with one literal entry is classified FULL. -/
theorem C4_witness :
    (calculate_compliance_levels cliFullEx zonesFullEx formulaMinEx).zonesLevel = "FULL" :=
  (C4_zones_full cliFullEx zonesFullEx formulaMinEx "").1.mpr (List.cons_ne_nil _ _)

/-- C9: every `extract_zones` result (in both the probe and the tests
variant) has `attempted = true`, so the zones axis level computed from it is
never MINIMAL. -/
theorem C9_always_attempted (ex : Option ExtractorBehavior) (src : String)
    (ci : CliInfo) (fi : FormulaInfo) :
    (extract_zones ex src).attempted = true
    ∧ (extract_zones_tests ex src).attempted = true
    ∧ ((calculate_compliance_levels ci (extract_zones ex src) fi).zonesLevel = "FULL"
       ∨ (calculate_compliance_levels ci (extract_zones ex src) fi).zonesLevel = "PARTIAL") := by
  refine ⟨extract_zones_attempted ex src, afterRaw_attempted _ _, ?_⟩
  have hz : (calculate_compliance_levels ci (extract_zones ex src) fi).zonesLevel
      = zonesLevelOf (extract_zones ex src) := rfl
  rw [hz]
  unfold zonesLevelOf
  rw [extract_zones_attempted ex src]
  exact assessLevel_true _

/-- C6: `extract_zones` is total: whatever the extractor capability does
(absent, raising, returning `None`, a non-dict, or a dict without recognised
keys) the result is a well-formed record with `attempted = true`, one of the
three method tags, and every failure captured in-band in `error`. -/
theorem C6_zones_total (ex : Option ExtractorBehavior) (src : String) :
    (extract_zones ex src).attempted = true
    ∧ ((extract_zones ex src).method = "ast" ∨ (extract_zones ex src).method = "fallback"
       ∨ (extract_zones ex src).method = "ast_failed")
    ∧ ((extract_zones ex src).method = "ast_failed"
       → (extract_zones ex src).error.isSome = true)
    ∧ (∀ m, ex = some (.raises m) →
        extract_zones ex src = { zonesBase with method := "ast_failed", error := some m })
    ∧ (∀ v, ex = some (.returns v) → isDictV v = false → v ≠ PyVal.none →
        (extract_zones ex src).error
          = some ("extract_zone_thresholds_ast returned non-dict: " ++ pyTypeName v))
    ∧ (∀ es, ex = some (.returns (PyVal.dict es)) →
        isListOrTup (pyGet es "thresholds") = false →
        isSomeDict (pyGet es "mapping") = false →
        isSomeDict (pyGet es "constants") = false →
        isSomeList (pyGet es "if_chain") = false →
        (extract_zones ex src).error
          = some ("extract_zone_thresholds_ast returned dict without recognized keys: "
                  ++ String.intercalate ", " (pySorted (es.map Prod.fst)))) := by
  refine ⟨extract_zones_attempted ex src, ?_, ?_, ?_, ?_, ?_⟩
  · cases ex with
    | none => exact (afterRaw_shape _ _).1
    | some b =>
      cases b with
      | raises m => exact Or.inr (Or.inr rfl)
      | returns v => exact (afterRaw_shape _ _).1
  · cases ex with
    | none => exact (afterRaw_shape _ _).2
    | some b =>
      cases b with
      | raises m => exact fun _ => rfl
      | returns v => exact (afterRaw_shape _ _).2
  · rintro m rfl
    rfl
  · rintro v rfl hnd hnn
    cases v with
    | none => exact absurd rfl hnn
    | dict es => simp [isDictV] at hnd
    | bool b => rfl
    | int n => rfl
    | float q => rfl
    | str s => rfl
    | list xs => rfl
    | tuple xs => rfl
  · rintro es rfl h1 h2 h3 h4
    show (normalizeRaw zonesBase (PyVal.dict es)).error = _
    unfold normalizeRaw
    split
    · rename_i xs heq
      injection heq with hes
      subst hes
      split
      · rename_i ys heq2
        rw [heq2] at h1
        simp [isListOrTup] at h1
      · rename_i ys heq2
        rw [heq2] at h1
        simp [isListOrTup] at h1
      · split
        · rename_i mp heq2
          rw [heq2] at h2
          simp [isSomeDict] at h2
        · have hnc : ¬((isSomeDict (pyGet es "constants")
              || isSomeList (pyGet es "if_chain")) = true) := by
            rw [h3, h4]
            simp
          rw [if_neg hnc]
    · rename_i y heq
      exact absurd rfl (heq es)

/-- C6 witness: a raising extractor is captured in-band as an
`ast_failed` record carrying the message. -/
theorem C6_witness :
    (extract_zones (some (.raises "boom")) "").error = some "boom" := by
  have h := (C6_zones_total (some (.raises "boom")) "").2.2.2.1 "boom" rfl
  rw [h]

/-- A strictly increasing chain has every adjacent pair strictly
increasing. -/
theorem strictIncrQ_adj : ∀ (l1 : List ℚ) (a b : ℚ) (l2 : List ℚ),
    strictIncrQ (l1 ++ a :: b :: l2) = true → a < b := by
  intro l1
  induction l1 with
  | nil =>
    intro a b l2 h
    simp only [List.nil_append, strictIncrQ, Bool.and_eq_true, decide_eq_true_eq] at h
    exact h.1
  | cons x xs ih =>
    intro a b l2 h
    rcases hxs : xs ++ a :: b :: l2 with _ | ⟨y, t⟩
    · exact absurd hxs (by simp)
    · rw [List.cons_append, hxs] at h
      simp only [strictIncrQ, Bool.and_eq_true] at h
      exact ih a b l2 (by rw [hxs]; exact h.2)

/-- C7: ladder validation rejects the entire chain whenever two adjacent
thresholds are equal or decreasing, regardless of how many valid-looking
links precede the violation — the result is empty, not a prefix; through
the modelled static extractor such a tree yields the no-signal result. -/
theorem C7_chain_rejected (pre : List ChainLink) (a b : ChainLink) (post : List ChainLink)
    (hle : b.threshold ≤ a.threshold) :
    validateChain (pre ++ a :: b :: post) = []
    ∧ ∀ assigns : List (String × PyVal), findAssignment assigns = Option.none →
        extract_zone_thresholds_ast ⟨assigns, pre ++ a :: b :: post⟩ = noSignalDict := by
  have hs : strictIncrQ ((pre ++ a :: b :: post).map (·.threshold)) = false := by
    cases hcase : strictIncrQ ((pre ++ a :: b :: post).map (·.threshold)) with
    | false => rfl
    | true =>
      have hmap : (pre ++ a :: b :: post).map (·.threshold)
          = pre.map (·.threshold) ++ a.threshold :: b.threshold :: post.map (·.threshold) := by
        simp
      rw [hmap] at hcase
      exact absurd (strictIncrQ_adj _ _ _ _ hcase) (not_lt.mpr hle)
  have hv : validateChain (pre ++ a :: b :: post) = [] := by
    unfold validateChain
    rw [hs]
    rfl
  refine ⟨hv, fun assigns hA => ?_⟩
  unfold extract_zone_thresholds_ast
  rw [hA]
  show ladderResult (pre ++ a :: b :: post) = noSignalDict
  unfold ladderResult
  rw [hv]
  rfl

/-- A candidate ladder with two valid-looking links followed by an equal
adjacent pair. -/
def ladderBadEx : List ChainLink :=
  [⟨"lt", 1, "green"⟩, ⟨"lt", 2, "yellow"⟩, ⟨"lt", 3, "orange"⟩, ⟨"lt", 3, "red"⟩]

/-- C7 witness: the concrete four-link ladder whose last two thresholds are
equal is rejected entirely. -/
theorem C7_witness : validateChain ladderBadEx = [] :=
  (C7_chain_rejected [⟨"lt", 1, "green"⟩, ⟨"lt", 2, "yellow"⟩]
    ⟨"lt", 3, "orange"⟩ ⟨"lt", 3, "red"⟩ [] (le_refl _)).1

/-- The exact conditions under which the golden run passes. -/
def passCond (w : ScoreWorld) : Prop :=
  w.ntRc = 0 ∧ w.ntFile = true
  ∧ ∃ t res, w.tContent = some t ∧ mutationOk t = true
      ∧ w.scRc = 0 ∧ w.scResults = some res ∧ pyTruthy res = true
      ∧ pyContainsK "T" res = some true ∧ pyContainsK "K_eff" res = some true

/-- The three generic C5 facts, bundled so each path of the case analysis
can produce them uniformly. -/
def goldenTriple (w : ScoreWorld) : Prop :=
  (∀ fi, check_formula_contract w = Except.ok fi →
      fi.golden_attempted = true ∧ (fi.golden_pass = false → fi.error.isSome = true))
  ∧ (check_formula_contract w = Except.ok ⟨true, true, Option.none⟩ ↔ passCond w)
  ∧ (∀ fi, check_formula_contract w = Except.ok fi → fi.golden_pass = true →
      fi = ⟨true, true, Option.none⟩)

/-- A returning failure path gives the triple. -/
theorem goldenTriple_of_fail {w : ScoreWorld} {msg : String}
    (hc : check_formula_contract w = Except.ok (goldenFail msg))
    (hnp : ¬ passCond w) : goldenTriple w := by
  refine ⟨?_, ?_, ?_⟩
  · intro fi h
    rw [hc] at h
    obtain rfl := Except.ok.inj h
    exact ⟨rfl, fun _ => rfl⟩
  · constructor
    · intro h
      rw [hc] at h
      have h2 := Except.ok.inj h
      simp [goldenFail] at h2
    · intro hp
      exact absurd hp hnp
  · intro fi h hp
    rw [hc] at h
    obtain rfl := Except.ok.inj h
    exact Bool.noConfusion hp

/-- A raising path gives the triple. -/
theorem goldenTriple_of_raise {w : ScoreWorld} {msg : String}
    (hc : check_formula_contract w = Except.error msg)
    (hnp : ¬ passCond w) : goldenTriple w := by
  refine ⟨?_, ?_, ?_⟩
  · intro fi h
    rw [hc] at h
    exact Except.noConfusion h
  · constructor
    · intro h
      rw [hc] at h
      exact Except.noConfusion h
    · intro hp
      exact absurd hp hnp
  · intro fi h _
    rw [hc] at h
    exact Except.noConfusion h

/-- The passing path gives the triple. -/
theorem goldenTriple_of_pass {w : ScoreWorld}
    (hc : check_formula_contract w = Except.ok ⟨true, true, Option.none⟩)
    (hp : passCond w) : goldenTriple w := by
  refine ⟨?_, ⟨fun _ => hp, fun _ => hc⟩, ?_⟩
  · intro fi h
    rw [hc] at h
    obtain rfl := Except.ok.inj h
    exact ⟨rfl, fun hf => Bool.noConfusion hf⟩
  · intro fi h _
    rw [hc] at h
    obtain rfl := Except.ok.inj h
    rfl

/-- A world where `new-template` succeeded and produced a file that is not
valid JSON. -/
def wBadJson : ScoreWorld :=
  ⟨0, true, "", "", Option.none, 0, "", some (.dict [("T", .int 1), ("K_eff", .int 2)])⟩

/-- A decoded template of the shape the instrument contract promises. -/
def templateOkEx : PyVal :=
  .dict [("items", .list [.dict [("dimension", .str "d"), ("score", .int 1),
                                 ("weight", .int 1)]])]

/-- A world whose score results decode but lack the `K_eff` field. -/
def wMissingK : ScoreWorld :=
  ⟨0, true, "", "", some templateOkEx, 0, "", some (.dict [("T", .int 1)])⟩

/-- A world where every golden-run condition holds. -/
def wPassEx : ScoreWorld :=
  ⟨0, true, "", "", some templateOkEx, 0, "",
   some (.dict [("T", .int 1), ("K_eff", .int 2)])⟩

/-- C5 counterexample: when the `new-template` run succeeds and produces a
file whose content is not valid JSON, `check_formula_contract` raises
(`json.loads` on line 244 of `src/contract_probe.py` is not guarded), so
this failing path records no descriptive failure string and returns no info
record at all — contrary to the claim that every failing path records one. -/
theorem C5_counterexample :
    check_formula_contract wBadJson
      = Except.error "json.loads: template file is not valid JSON" := rfl

/-- C5 (amended): the golden run reports `passed=true` exactly when template
generation exits 0 and produces a file, the file decodes as JSON and mutates
cleanly, the compute-score run exits 0 with truthy decoded results, and the
results contain both `T` and `K_eff`; on every failing path that returns, a
descriptive failure string is recorded and `attempted` remains true — but a
template file that fails to decode (or a `TypeError` during mutation or
membership testing) propagates an exception instead of recording a failure.
A results file missing `K_eff` yields `passed=false` and formula level
PARTIAL. -/
theorem C5_formula_golden (w : ScoreWorld) :
    goldenTriple w
    ∧ check_formula_contract wMissingK
        = Except.ok ⟨true, false, some "results.json missing T and/or K_eff"⟩
    ∧ formulaLevelOf ⟨true, false, some "results.json missing T and/or K_eff"⟩
        = "PARTIAL" := by
  refine ⟨?_, rfl, rfl⟩
  by_cases hA : w.ntRc ≠ 0 ∨ w.ntFile = false
  · have hc : check_formula_contract w
        = Except.ok (goldenFail ("new-template failed: " ++ pyOrStr w.ntStderr w.ntStdout)) := by
      unfold check_formula_contract
      rw [if_pos hA]
    refine goldenTriple_of_fail hc ?_
    rintro ⟨h1, h2, -⟩
    rcases hA with h | h
    · exact h h1
    · rw [h2] at h
      exact Bool.noConfusion h
  · have hstep : check_formula_contract w = cfcTemplate w w.tContent := by
      unfold check_formula_contract
      rw [if_neg hA]
    rcases htc : w.tContent with _ | t
    · have hc : check_formula_contract w
          = Except.error "json.loads: template file is not valid JSON" := by
        rw [hstep, htc]
        rfl
      refine goldenTriple_of_raise hc ?_
      rintro ⟨-, -, t, res, hsome, -⟩
      rw [htc] at hsome
      exact Option.noConfusion hsome
    · by_cases hmut : mutationOk t = false
      · have hc : check_formula_contract w
            = Except.error "TypeError while mutating template items" := by
          rw [hstep, htc]
          simp only [cfcTemplate]
          rw [if_pos hmut]
        refine goldenTriple_of_raise hc ?_
        rintro ⟨-, -, t2, res, hsome, hmt, -⟩
        rw [htc] at hsome
        obtain rfl := Option.some.inj hsome
        rw [hmt] at hmut
        exact Bool.noConfusion hmut
      · have hmut' : mutationOk t = true := by
          cases hm : mutationOk t
          · exact absurd hm hmut
          · rfl
        by_cases hS : w.scRc ≠ 0 ∨ pyTruthyOpt w.scResults = false
        · have hc : check_formula_contract w
              = Except.ok (goldenFail ("score failed: " ++ w.scStderr)) := by
            rw [hstep, htc]
            simp only [cfcTemplate]
            rw [if_neg (show ¬ (mutationOk t = false) by simp [hmut']), if_pos hS]
          refine goldenTriple_of_fail hc ?_
          rintro ⟨-, -, t2, res, hsome, -, hrc2, hres, htr, -⟩
          rcases hS with h | h
          · exact h hrc2
          · rw [hres] at h
            have h2 : pyTruthy res = false := h
            rw [htr] at h2
            exact Bool.noConfusion h2
        · have hrc2 : w.scRc = 0 := by
            by_contra hx
            exact hS (Or.inl hx)
          have htr : pyTruthyOpt w.scResults = true := by
            cases ht : pyTruthyOpt w.scResults
            · exact absurd (Or.inr ht) hS
            · rfl
          rcases hres : w.scResults with _ | res
          · rw [hres] at htr
            exact absurd htr (by decide)
          · have htr' : pyTruthy res = true := by
              rw [hres] at htr
              exact htr
            have hstep2 : check_formula_contract w = cfcT res (pyContainsK "T" res) := by
              rw [hstep, htc]
              simp only [cfcTemplate]
              rw [if_neg (show ¬ (mutationOk t = false) by simp [hmut']), if_neg hS, hres]
              simp only [cfcResults]
            rcases hT : pyContainsK "T" res with _ | bT
            · have hc : check_formula_contract w
                  = Except.error "TypeError: membership test on results" := by
                rw [hstep2, hT]
                rfl
              refine goldenTriple_of_raise hc ?_
              rintro ⟨-, -, t2, res2, hsome2, -, -, hres2, -, hT2, -⟩
              rw [hres] at hres2
              obtain rfl := Option.some.inj hres2
              rw [hT] at hT2
              exact Option.noConfusion hT2
            · cases bT with
              | false =>
                have hc : check_formula_contract w
                    = Except.ok (goldenFail "results.json missing T and/or K_eff") := by
                  rw [hstep2, hT]
                  rfl
                refine goldenTriple_of_fail hc ?_
                rintro ⟨-, -, t2, res2, hsome2, -, -, hres2, -, hT2, -⟩
                rw [hres] at hres2
                obtain rfl := Option.some.inj hres2
                rw [hT] at hT2
                obtain h3 := Option.some.inj hT2
                exact Bool.noConfusion h3
              | true =>
                rcases hK : pyContainsK "K_eff" res with _ | bK
                · have hc : check_formula_contract w
                      = Except.error "TypeError: membership test on results" := by
                    rw [hstep2, hT]
                    simp only [cfcT]
                    rw [if_neg (show ¬ (true = false) by simp), hK]
                    rfl
                  refine goldenTriple_of_raise hc ?_
                  rintro ⟨-, -, t2, res2, hsome2, -, -, hres2, -, -, hK2⟩
                  rw [hres] at hres2
                  obtain rfl := Option.some.inj hres2
                  rw [hK] at hK2
                  exact Option.noConfusion hK2
                · cases bK with
                  | false =>
                    have hc : check_formula_contract w
                        = Except.ok (goldenFail "results.json missing T and/or K_eff") := by
                      rw [hstep2, hT]
                      simp only [cfcT]
                      rw [if_neg (show ¬ (true = false) by simp), hK]
                      rfl
                    refine goldenTriple_of_fail hc ?_
                    rintro ⟨-, -, t2, res2, hsome2, -, -, hres2, -, -, hK2⟩
                    rw [hres] at hres2
                    obtain rfl := Option.some.inj hres2
                    rw [hK] at hK2
                    obtain h3 := Option.some.inj hK2
                    exact Bool.noConfusion h3
                  | true =>
                    have hfile : w.ntFile = true := by
                      cases hf : w.ntFile
                      · exact absurd (Or.inr hf) hA
                      · rfl
                    have hrc1 : w.ntRc = 0 := by
                      by_contra hx
                      exact hA (Or.inl hx)
                    have hc : check_formula_contract w
                        = Except.ok ⟨true, true, Option.none⟩ := by
                      rw [hstep2, hT]
                      simp only [cfcT]
                      rw [if_neg (show ¬ (true = false) by simp), hK]
                      rfl
                    exact goldenTriple_of_pass hc
                      ⟨hrc1, hfile, t, res, htc, hmut', hrc2, hres, htr', hT, hK⟩

/-- C5 witness: a world satisfying all golden-run conditions yields the
passing record. -/
theorem C5_witness :
    check_formula_contract wPassEx = Except.ok ⟨true, true, Option.none⟩ :=
  (C5_formula_golden wPassEx).1.2.1.mpr
    ⟨rfl, rfl, templateOkEx, .dict [("T", .int 1), ("K_eff", .int 2)],
     rfl, rfl, rfl, rfl, rfl, rfl, rfl⟩
